import Mathlib

/-!
Verification development for the ai-summarizer evaluation and metrics engine.

The Python modules `evaluation.py`, `metrics.py` and `prompt_versions.py` are
embedded shallowly: Python floats become exact rationals, CSV numeric cells
become their parse outcome (`some q` when `float(...)`/`int(...)` succeeds,
`none` when it raises), and the append-only CSV logs become Lean lists of row
structures.  Python dicts (insertion ordered) become association lists.
-/

/-- Floor of a rational as an integer. -/
def ratFloorZ (q : ℚ) : ℤ := ⌊q⌋

/-- Python `round(x)` on an exact rational: round half to even. -/
def pyRound0 (q : ℚ) : ℤ :=
  let f := ratFloorZ q
  let r := q - (f : ℚ)
  if r < 1/2 then f
  else if 1/2 < r then f + 1
  else if f % 2 = 0 then f else f + 1

/-- Python `round(x, n)` on an exact rational: scale by 10^n, round half to
even, unscale. -/
def roundTo (n : ℕ) (q : ℚ) : ℚ := ((pyRound0 (q * 10 ^ n) : ℤ) : ℚ) / 10 ^ n

/-- Helper for `pySplitWs`: walk the characters, accumulating the current
word (reversed); whitespace ends the current word, empty pieces are dropped. -/
def wordsAux : List Char → List Char → List String
  | [], cur => if cur.isEmpty then [] else [String.mk cur.reverse]
  | c :: cs, cur =>
    if c.isWhitespace then
      if cur.isEmpty then wordsAux cs [] else String.mk cur.reverse :: wordsAux cs []
    else wordsAux cs (c :: cur)

/-- Python `str.split()` with no argument: split on runs of whitespace,
dropping empty pieces (so the empty string yields the empty list). -/
def pySplitWs (s : String) : List String := wordsAux s.data []

/-- Helper for `pySplitDot`: split at each dot, keeping empty pieces. -/
def splitDotAux : List Char → List Char → List String
  | [], cur => [String.mk cur.reverse]
  | c :: cs, cur =>
    if c = '.' then String.mk cur.reverse :: splitDotAux cs []
    else splitDotAux cs (c :: cur)

/-- Python `str.split1` on the dot separator: keeps empty pieces and always
returns at least one piece (the empty string yields a single empty piece). -/
def pySplitDot (s : String) : List String := splitDotAux s.data []

/-- Python `str.lower()` (character-wise lowering). -/
def pyLower (s : String) : String := String.mk (s.data.map Char.toLower)

/-- clamp(x, lo, hi): x forced into the closed interval [lo, hi]. -/
def clampTo (lo hi x : ℤ) : ℤ := min hi (max lo x)

/-- Rounding an exact zero at any precision gives zero. -/
theorem roundTo_zero (n : ℕ) : roundTo n 0 = 0 := by
  norm_num [roundTo, pyRound0, ratFloorZ]

/-! ## evaluation.py: calculate_readability_score -/

structure ReadabilityMetrics where
  avg_word_length : ℚ
  avg_sentence_length : ℚ
  readability_score : ℤ
deriving DecidableEq, Repr

/-- `avg_word_length` of `calculate_readability_score`:
`sum(len(w) for w in words) / len(words) if words else 0`. -/
def avg_word_length_of (text : String) : ℚ :=
  let words := pySplitWs text
  if words.isEmpty then 0
  else ((words.map (fun w => w.data.length)).sum : ℚ) / (words.length : ℚ)

/-- `avg_sentence_length` of `calculate_readability_score`:
`len(words) / len(sentences) if sentences else 0`. -/
def avg_sentence_length_of (text : String) : ℚ :=
  let words := pySplitWs text
  let sentences := pySplitDot text
  if sentences.isEmpty then 0
  else (words.length : ℚ) / (sentences.length : ℚ)

/-- Embedding of `evaluation.calculate_readability_score`: words are the
whitespace split, sentences the dot split; the score is
`min(100, round((5 - avg_word_length + 10 - avg_sentence_length) * 5, 0))`
then `max(20, ...)`, returned as an int; the two averages are returned
rounded to 2 decimals. -/
def calculate_readability_score (text : String) : ReadabilityMetrics :=
  let avg_word_length := avg_word_length_of text
  let avg_sentence_length := avg_sentence_length_of text
  let readability_score : ℤ :=
    max 20 (min 100 (pyRound0 ((5 - avg_word_length + 10 - avg_sentence_length) * 5)))
  { avg_word_length := roundTo 2 avg_word_length
    avg_sentence_length := roundTo 2 avg_sentence_length
    readability_score := readability_score }

/-! ## evaluation.py: calculate_basic_metrics -/

structure BasicMetrics where
  reference_length : ℕ
  candidate_length : ℕ
  compression_ratio : ℚ
  word_overlap_percentage : ℚ
deriving DecidableEq, Repr

/-- Embedding of `evaluation.calculate_basic_metrics`.  Python `set(...)` of
the lowercased whitespace tokens is modelled as the deduplicated token list;
set intersection cardinality becomes counting the reference's distinct tokens
that also occur among the candidate's. -/
def calculate_basic_metrics (reference candidate : String) : BasicMetrics :=
  let ref_length := reference.data.length
  let cand_length := candidate.data.length
  let compression_ratio : ℚ :=
    if ref_length > 0 then roundTo 2 ((cand_length : ℚ) / (ref_length : ℚ) * 100) else 0
  let ref_words := (pySplitWs (pyLower reference)).dedup
  let cand_words := (pySplitWs (pyLower candidate)).dedup
  let word_overlap : ℚ :=
    if ref_words.length = 0 then 0
    else roundTo 2
      (((ref_words.filter (fun w => w ∈ cand_words)).length : ℚ) / (ref_words.length : ℚ) * 100)
  { reference_length := ref_length
    candidate_length := cand_length
    compression_ratio := compression_ratio
    word_overlap_percentage := word_overlap }

/-! ## Theorems for claims C5 and C6 -/

/-- Claim C5: for every text, `calculate_readability_score` returns
`readability_score = clamp(round((5 - avg_word_length + 10 - avg_sentence_length) * 5), 20, 100)`
(rounding to nearest integer before clamping), and on the empty string it
yields `avg_word_length = 0`, `avg_sentence_length = 0` and the literal
formula value `75` rather than the clamp floor `20`. -/
theorem readability_formula_and_empty_case :
    (∀ text : String,
      (calculate_readability_score text).readability_score =
        clampTo 20 100
          (pyRound0 ((5 - avg_word_length_of text + 10 - avg_sentence_length_of text) * 5))) ∧
    (calculate_readability_score "").avg_word_length = 0 ∧
    (calculate_readability_score "").avg_sentence_length = 0 ∧
    (calculate_readability_score "").readability_score = 75 := by
  have hw : avg_word_length_of "" = 0 := rfl
  have hs : avg_sentence_length_of "" = 0 := by
    have hdot : pySplitDot "" = [""] := rfl
    have hws : pySplitWs "" = [] := rfl
    simp [avg_sentence_length_of, hdot, hws]
  refine ⟨fun text => ?_, ?_, ?_, ?_⟩
  · simp only [calculate_readability_score, clampTo]
    omega
  · show roundTo 2 (avg_word_length_of "") = 0
    rw [hw, roundTo_zero]
  · show roundTo 2 (avg_sentence_length_of "") = 0
    rw [hs, roundTo_zero]
  · show max 20 (min 100 (pyRound0
      ((5 - avg_word_length_of "" + 10 - avg_sentence_length_of "") * 5))) = 75
    rw [hw, hs]
    norm_num [pyRound0, ratFloorZ]

/-- Claim C6 (amended): `calculate_basic_metrics` is total and returns
`compression_ratio = round(candidate_length / reference_length * 100, 2)` when
the reference is non-empty and `0` otherwise, and `word_overlap_percentage`
equal to the percentage of the reference's distinct lowercased whitespace
tokens that also occur in the candidate's token set, rounded to 2 decimal
places, with `0` when the reference has no tokens. -/
theorem basic_metrics_formulas :
    ∀ reference candidate : String,
      (calculate_basic_metrics reference candidate).reference_length =
          reference.data.length ∧
      (calculate_basic_metrics reference candidate).candidate_length =
          candidate.data.length ∧
      (calculate_basic_metrics reference candidate).compression_ratio =
        (if reference.data.length > 0 then
          roundTo 2 ((candidate.data.length : ℚ) / (reference.data.length : ℚ) * 100)
         else 0) ∧
      (calculate_basic_metrics reference candidate).word_overlap_percentage =
        (if ((pySplitWs (pyLower reference)).dedup).length = 0 then 0
         else roundTo 2
           (((((pySplitWs (pyLower reference)).dedup).filter
                (fun w => w ∈ (pySplitWs (pyLower candidate)).dedup)).length : ℚ) /
              (((pySplitWs (pyLower reference)).dedup).length : ℚ) * 100)) := by
  intro reference candidate
  exact ⟨rfl, rfl, rfl, rfl⟩

/-- Claim C6 counterexample: the claim omits the 2-decimal rounding that the
code applies.  With reference "abc" and candidate "a" the code stores
`33.33`, which is not `1/3 * 100`. -/
theorem basic_metrics_rounding_cex :
    (calculate_basic_metrics "abc" "a").compression_ratio = 3333/100 ∧
    (3333/100 : ℚ) ≠
      (("a".data.length : ℚ) / ("abc".data.length : ℚ) * 100) := by
  have h3 : "abc".data.length = 3 := rfl
  have h1 : "a".data.length = 1 := rfl
  constructor
  · show (if "abc".data.length > 0 then
        roundTo 2 (("a".data.length : ℚ) / ("abc".data.length : ℚ) * 100) else 0) = 3333/100
    rw [h3, h1]
    norm_num [roundTo, pyRound0, ratFloorZ]
  · rw [h3, h1]
    norm_num

/-! ## evaluation.py: calculate_rouge_scores

The `rouge_score` library that `scorer.score` calls is an external package,
not part of this repository's sources.  Its behaviour is therefore modelled
from the specification.
-/

/-- Raw (unrounded) F-measures returned by the scorer for the three metrics,
keyed as in the source: unigram, bigram and longest-common-subsequence. -/
structure RawScores where
  rouge1 : ℚ
  rouge2 : ℚ
  rougeL : ℚ
deriving DecidableEq, Repr

/-- The dictionary returned by `calculate_rouge_scores`: each score is a
rounded rational or `none` (Python `None`). -/
structure ScoreSet where
  rouge1 : Option ℚ
  rouge2 : Option ℚ
  rougeL : Option ℚ
  average : Option ℚ
deriving DecidableEq, Repr

/-- Modelled from the spec: the scorer's tokenizer, sharing TextMetrics'
conventions (lowercased whitespace tokens); word-stem normalization is a
further `stem` map applied to each token by `scorer_score`. -/
def rougeTokenize (text : String) : List String := pySplitWs (pyLower text)

/-- The list of n-grams (contiguous windows of length n) of a token list. -/
def ngrams (n : ℕ) (l : List String) : List (List String) :=
  (List.range (l.length + 1 - n)).map (fun i => (l.drop i).take n)

/-- Multiset intersection size of two n-gram lists: for each distinct n-gram
the smaller of its two occurrence counts, summed over distinct n-grams. -/
def countOverlap (xs ys : List (List String)) : ℕ :=
  Multiset.card ((xs : Multiset (List String)) ∩ (ys : Multiset (List String)))

/-- Length of a longest common subsequence, by the classic recursion; the
fuel argument (combined length suffices) keeps the recursion structural. -/
def lcsAux : ℕ → List String → List String → ℕ
  | 0, _, _ => 0
  | _ + 1, [], _ => 0
  | _ + 1, _, [] => 0
  | fuel + 1, a :: as, b :: bs =>
    if a = b then lcsAux fuel as bs + 1
    else max (lcsAux fuel (a :: as) bs) (lcsAux fuel as (b :: bs))

/-- Longest-common-subsequence length of two token lists. -/
def lcsLen (as bs : List String) : ℕ := lcsAux (as.length + bs.length) as bs

/-- Modelled from the spec: an F-measure (harmonic mean of precision and
recall) from an intersection size, a reference-side count and a
candidate-side count; a zero denominator yields a zero component, and a
zero precision-plus-recall yields F-measure 0. -/
def fmeasureFrom (inter tgt pred : ℕ) : ℚ :=
  let p : ℚ := if pred = 0 then 0 else (inter : ℚ) / (pred : ℚ)
  let r : ℚ := if tgt = 0 then 0 else (inter : ℚ) / (tgt : ℚ)
  if p + r = 0 then 0 else 2 * p * r / (p + r)

/-- Modelled from the spec: `scorer.score(reference, candidate)` — unigram,
bigram and LCS F-measures over stemmed tokens. -/
def scorer_score (stem : String → String) (reference candidate : String) : RawScores :=
  let rt := (rougeTokenize reference).map stem
  let ct := (rougeTokenize candidate).map stem
  { rouge1 := fmeasureFrom (countOverlap (ngrams 1 rt) (ngrams 1 ct))
      (ngrams 1 rt).length (ngrams 1 ct).length
    rouge2 := fmeasureFrom (countOverlap (ngrams 2 rt) (ngrams 2 ct))
      (ngrams 2 rt).length (ngrams 2 ct).length
    rougeL := fmeasureFrom (lcsLen rt ct) rt.length ct.length }

/-- Embedding of `evaluation.calculate_rouge_scores` given the outcome of the
`scorer.score` call: the `try` branch rounds each F-measure and their mean to
3 decimals; the `except` branch reports a non-fatal warning (the second
component) and returns the all-`None` dictionary instead of re-raising. -/
def calculate_rouge_scores_impl (res : Except String RawScores) : ScoreSet × List String :=
  match res with
  | Except.ok s =>
    ({ rouge1 := some (roundTo 3 s.rouge1)
       rouge2 := some (roundTo 3 s.rouge2)
       rougeL := some (roundTo 3 s.rougeL)
       average := some (roundTo 3 ((s.rouge1 + s.rouge2 + s.rougeL) / 3)) }, [])
  | Except.error e =>
    ({ rouge1 := none, rouge2 := none, rougeL := none, average := none },
     ["Error calculating ROUGE: " ++ e])

/-- `calculate_rouge_scores` on the non-raising path: score, then round. -/
def calculate_rouge_scores (stem : String → String) (reference candidate : String) : ScoreSet :=
  (calculate_rouge_scores_impl (Except.ok (scorer_score stem reference candidate))).1

/-! ### Helper lemmas about the scorer -/

theorem ngrams_length (n : ℕ) (l : List String) :
    (ngrams n l).length = l.length + 1 - n := by
  simp [ngrams]

theorem countOverlap_self (xs : List (List String)) : countOverlap xs xs = xs.length := by
  have h : (xs : Multiset (List String)) ∩ (xs : Multiset (List String)) =
      (xs : Multiset (List String)) :=
    le_antisymm (Multiset.inter_le_left _ _) (Multiset.le_inter (le_refl _) (le_refl _))
  rw [countOverlap, h, Multiset.coe_card]

theorem countOverlap_nil_left (ys : List (List String)) : countOverlap [] ys = 0 := by
  simp [countOverlap]

theorem countOverlap_nil_right (xs : List (List String)) : countOverlap xs [] = 0 := by
  simp [countOverlap]

theorem lcsAux_self : ∀ (l : List String) (fuel : ℕ),
    l.length + l.length ≤ fuel → lcsAux fuel l l = l.length := by
  intro l
  induction l with
  | nil => intro fuel h; cases fuel <;> rfl
  | cons a as ih =>
    intro fuel h
    cases fuel with
    | zero => simp only [List.length_cons] at h; omega
    | succ f =>
      simp only [lcsAux, if_pos rfl]
      rw [ih f ?_]
      · simp
      · simp only [List.length_cons] at h; omega

theorem lcsLen_self (l : List String) : lcsLen l l = l.length :=
  lcsAux_self l _ (le_refl _)

theorem lcsLen_nil_left (bs : List String) : lcsLen [] bs = 0 := by
  cases bs <;> rfl

theorem lcsLen_nil_right (as : List String) : lcsLen as [] = 0 := by
  cases as <;> rfl

theorem fmeasureFrom_self {n : ℕ} (h : n ≠ 0) : fmeasureFrom n n n = 1 := by
  have hq : ((n : ℚ)) ≠ 0 := Nat.cast_ne_zero.mpr h
  simp only [fmeasureFrom, if_neg h, div_self hq]
  norm_num

theorem fmeasureFrom_zero_inter (tgt pred : ℕ) : fmeasureFrom 0 tgt pred = 0 := by
  simp [fmeasureFrom]

theorem roundTo3_one : roundTo 3 (1 : ℚ) = 1 := by
  norm_num [roundTo, pyRound0, ratFloorZ]

theorem scorer_score_empty_ref (stem : String → String) (candidate : String) :
    scorer_score stem "" candidate = ⟨0, 0, 0⟩ := by
  have ht : (rougeTokenize "").map stem = [] := rfl
  have h1 : ngrams 1 ([] : List String) = [] := rfl
  have h2 : ngrams 2 ([] : List String) = [] := rfl
  simp only [scorer_score, ht, h1, h2, RawScores.mk.injEq]
  exact ⟨by rw [countOverlap_nil_left, fmeasureFrom_zero_inter],
    by rw [countOverlap_nil_left, fmeasureFrom_zero_inter],
    by rw [lcsLen_nil_left, fmeasureFrom_zero_inter]⟩

theorem scorer_score_empty_cand (stem : String → String) (reference : String) :
    scorer_score stem reference "" = ⟨0, 0, 0⟩ := by
  have ht : (rougeTokenize "").map stem = [] := rfl
  have h1 : ngrams 1 ([] : List String) = [] := rfl
  have h2 : ngrams 2 ([] : List String) = [] := rfl
  simp only [scorer_score, ht, h1, h2, RawScores.mk.injEq]
  exact ⟨by rw [countOverlap_nil_right, fmeasureFrom_zero_inter],
    by rw [countOverlap_nil_right, fmeasureFrom_zero_inter],
    by rw [lcsLen_nil_right, fmeasureFrom_zero_inter]⟩

/-! ### Theorems for claims C1, C3, C4 -/

theorem scorer_score_self_tokens (stem : String → String) (ref : String)
    (h : 2 ≤ (rougeTokenize ref).length) :
    scorer_score stem ref ref = ⟨1, 1, 1⟩ := by
  have hlen : ((rougeTokenize ref).map stem).length = (rougeTokenize ref).length :=
    List.length_map _ _
  simp only [scorer_score, RawScores.mk.injEq]
  refine ⟨?_, ?_, ?_⟩
  · rw [countOverlap_self]
    exact fmeasureFrom_self (by rw [ngrams_length, hlen]; omega)
  · rw [countOverlap_self]
    exact fmeasureFrom_self (by rw [ngrams_length, hlen]; omega)
  · rw [lcsLen_self]
    exact fmeasureFrom_self (by rw [hlen]; omega)

/-- Claim C1 (amended): for every reference whose tokenization yields at
least two tokens, `calculate_rouge_scores(ref, ref)` returns unigram, bigram
and LCS overlap, and their average, all exactly 1.0. -/
theorem rouge_self_similarity (stem : String → String) (ref : String)
    (h : 2 ≤ (rougeTokenize ref).length) :
    calculate_rouge_scores stem ref ref = ⟨some 1, some 1, some 1, some 1⟩ := by
  have hs := scorer_score_self_tokens stem ref h
  have h31 : roundTo 3 ((1 + 1 + 1 : ℚ) / 3) = 1 := by
    norm_num [roundTo, pyRound0, ratFloorZ]
  simp [calculate_rouge_scores, calculate_rouge_scores_impl, hs, roundTo3_one, h31]

/-- Witness for C1: perfect self-similarity at the spec's concrete scenario. -/
theorem rouge_self_similarity_witness :
    calculate_rouge_scores id "the cat sat on the mat" "the cat sat on the mat" =
      ⟨some 1, some 1, some 1, some 1⟩ :=
  rouge_self_similarity id "the cat sat on the mat" (by decide)

/-- Claim C1 counterexample: "hello" is a non-empty reference, yet its bigram
self-overlap is 0.0, not 1.0 — a single token has no bigrams, so the bigram
F-measure denominator is empty and the score is 0. -/
theorem rouge_self_similarity_cex :
    ("hello" : String) ≠ "" ∧
    (calculate_rouge_scores id "hello" "hello").rouge2 = some 0 ∧
    (0 : ℚ) ≠ 1 := by
  refine ⟨by decide, ?_, by norm_num⟩
  show some (roundTo 3 (scorer_score id "hello" "hello").rouge2) = some 0
  have hb : (scorer_score id "hello" "hello").rouge2 = fmeasureFrom 0 0 0 := rfl
  rw [hb, fmeasureFrom_zero_inter, roundTo_zero]

/-- Claim C3 (amended): `average` is null iff any component is null;
otherwise `average` equals the mean of the three unrounded F-measures rounded
to 3 decimals (which can differ in the last decimal from the mean of the
three returned, individually rounded components). -/
theorem rouge_average_null_iff_and_value :
    (∀ (stem : String → String) (reference candidate : String),
      (calculate_rouge_scores stem reference candidate).average =
        some (roundTo 3 (((scorer_score stem reference candidate).rouge1 +
          (scorer_score stem reference candidate).rouge2 +
          (scorer_score stem reference candidate).rougeL) / 3))) ∧
    (∀ res : Except String RawScores,
      ((calculate_rouge_scores_impl res).1.average = none ↔
        ((calculate_rouge_scores_impl res).1.rouge1 = none ∨
         (calculate_rouge_scores_impl res).1.rouge2 = none ∨
         (calculate_rouge_scores_impl res).1.rougeL = none))) := by
  constructor
  · intro stem reference candidate; rfl
  · intro res; cases res <;> simp [calculate_rouge_scores_impl]

/-- Witness for C3 at a concrete input. -/
theorem rouge_average_null_iff_and_value_witness :
    (calculate_rouge_scores id "a b" "b a").average =
      some (roundTo 3 (((scorer_score id "a b" "b a").rouge1 +
        (scorer_score id "a b" "b a").rouge2 +
        (scorer_score id "a b" "b a").rougeL) / 3)) :=
  rouge_average_null_iff_and_value.1 id "a b" "b a"

/-- Claim C3 counterexample: for reference "a b c" and candidate "c a b" the
returned components are 1, 0.5 and 0.667 while the returned average is
0.722, but the arithmetic mean of the returned components is 2.167/3, which
is not 0.722.  The average is the rounded mean of the unrounded scores, not
the mean of the returned (rounded) values. -/
theorem rouge_average_mean_of_rounded_cex :
    (calculate_rouge_scores id "a b c" "c a b").rouge1 = some 1 ∧
    (calculate_rouge_scores id "a b c" "c a b").rouge2 = some (1/2) ∧
    (calculate_rouge_scores id "a b c" "c a b").rougeL = some (667/1000) ∧
    (calculate_rouge_scores id "a b c" "c a b").average = some (361/500) ∧
    (361/500 : ℚ) ≠ (1 + 1/2 + 667/1000) / 3 := by
  have hs : scorer_score id "a b c" "c a b" = ⟨1, 1/2, 2/3⟩ := by
    have e1 : (rougeTokenize "a b c").map id = ["a", "b", "c"] := rfl
    have e2 : (rougeTokenize "c a b").map id = ["c", "a", "b"] := rfl
    have c1 : countOverlap (ngrams 1 ["a", "b", "c"]) (ngrams 1 ["c", "a", "b"]) = 3 := by
      decide
    have c2 : countOverlap (ngrams 2 ["a", "b", "c"]) (ngrams 2 ["c", "a", "b"]) = 1 := by
      decide
    have l1 : (ngrams 1 (["a", "b", "c"] : List String)).length = 3 := by decide
    have l1c : (ngrams 1 (["c", "a", "b"] : List String)).length = 3 := by decide
    have l2 : (ngrams 2 (["a", "b", "c"] : List String)).length = 2 := by decide
    have l2c : (ngrams 2 (["c", "a", "b"] : List String)).length = 2 := by decide
    have lL : lcsLen ["a", "b", "c"] ["c", "a", "b"] = 2 := by decide
    have m1 : (["a", "b", "c"] : List String).length = 3 := rfl
    have m2 : (["c", "a", "b"] : List String).length = 3 := rfl
    simp only [scorer_score, e1, e2, c1, c2, l1, l1c, l2, l2c, lL, m1, m2,
      RawScores.mk.injEq]
    refine ⟨?_, ?_, ?_⟩ <;> norm_num [fmeasureFrom]
  refine ⟨?_, ?_, ?_, ?_, by norm_num⟩
  · show some (roundTo 3 (scorer_score id "a b c" "c a b").rouge1) = some (1 : ℚ)
    rw [hs]
    norm_num [roundTo, pyRound0, ratFloorZ]
  · show some (roundTo 3 (scorer_score id "a b c" "c a b").rouge2) = some (1/2 : ℚ)
    rw [hs]
    norm_num [roundTo, pyRound0, ratFloorZ]
  · show some (roundTo 3 (scorer_score id "a b c" "c a b").rougeL) = some (667/1000 : ℚ)
    rw [hs]
    norm_num [roundTo, pyRound0, ratFloorZ]
  · show some (roundTo 3 (((scorer_score id "a b c" "c a b").rouge1 +
      (scorer_score id "a b c" "c a b").rouge2 +
      (scorer_score id "a b c" "c a b").rougeL) / 3)) = some (361/500 : ℚ)
    rw [hs]
    norm_num [roundTo, pyRound0, ratFloorZ]

/-- Claim C4: an empty reference or an empty candidate yields all three
overlap components exactly 0.0 (not null); the all-null ScoreSet arises
exactly on the exception path, where the error is reported as a non-fatal
warning (the returned message list) instead of being propagated. -/
theorem rouge_empty_inputs_and_error_path :
    (∀ (stem : String → String) (candidate : String),
      (calculate_rouge_scores stem "" candidate).rouge1 = some 0 ∧
      (calculate_rouge_scores stem "" candidate).rouge2 = some 0 ∧
      (calculate_rouge_scores stem "" candidate).rougeL = some 0) ∧
    (∀ (stem : String → String) (reference : String),
      (calculate_rouge_scores stem reference "").rouge1 = some 0 ∧
      (calculate_rouge_scores stem reference "").rouge2 = some 0 ∧
      (calculate_rouge_scores stem reference "").rougeL = some 0) ∧
    (∀ res : Except String RawScores,
      ((calculate_rouge_scores_impl res).1 = ⟨none, none, none, none⟩ ↔
        ∃ e, res = Except.error e)) ∧
    (∀ e : String,
      (calculate_rouge_scores_impl (Except.error e)).2 =
        ["Error calculating ROUGE: " ++ e]) := by
  refine ⟨fun stem candidate => ?_, fun stem reference => ?_, fun res => ?_, fun e => rfl⟩
  · have hs := scorer_score_empty_ref stem candidate
    simp [calculate_rouge_scores, calculate_rouge_scores_impl, hs, roundTo_zero]
  · have hs := scorer_score_empty_cand stem reference
    simp [calculate_rouge_scores, calculate_rouge_scores_impl, hs, roundTo_zero]
  · cases res with
    | ok s => simp [calculate_rouge_scores_impl, ScoreSet.mk.injEq]
    | error e => simp [calculate_rouge_scores_impl]

/-- Witness for C4 at concrete inputs. -/
theorem rouge_empty_inputs_and_error_path_witness :
    (calculate_rouge_scores id "" "hello").rouge1 = some 0 ∧
    (calculate_rouge_scores id "abc" "").rouge2 = some 0 ∧
    (calculate_rouge_scores_impl (Except.error "boom")).2 =
      ["Error calculating ROUGE: " ++ "boom"] :=
  ⟨(rouge_empty_inputs_and_error_path.1 id "hello").1,
    (rouge_empty_inputs_and_error_path.2.1 id "abc").2.1,
    rouge_empty_inputs_and_error_path.2.2.2 "boom"⟩

/-! ## evaluation.py: the evaluation log and get_evaluation_summary

A CSV row as produced by `csv.DictReader`: the non-numeric cells are kept as
strings, each numeric cell is abstracted to its parse outcome — `some q` when
Python `float(cell)` succeeds with value `q`, `none` when it raises
`ValueError`/`TypeError`.
-/

structure EvalRow where
  timestamp : String
  prompt_version : String
  input_length : Option ℤ
  rouge1_score : Option ℚ
  rouge2_score : Option ℚ
  rougeL_score : Option ℚ
  average_rouge : Option ℚ
  word_overlap_pct : Option ℚ
  compression_ratio : Option ℚ
  readability_score : Option ℚ
  processing_time : Option ℚ
deriving DecidableEq, Repr

/-- The per-field `try: float(...) except: 0.0` fallback of
`get_evaluation_summary`. -/
def floatOr0 : Option ℚ → ℚ
  | some q => q
  | none => 0

/-- The running accumulator dictionary value of `get_evaluation_summary`,
with the keys used by the source (`avg_*` hold running sums until the final
averaging pass). -/
structure RunningStats where
  count : ℕ
  avg_rouge1 : ℚ
  avg_rouge2 : ℚ
  avg_rougeL : ℚ
  avg_readability : ℚ
  total_time : ℚ
deriving DecidableEq, Repr

/-- The all-zero dictionary entry created when a prompt version is first
seen. -/
def initStats : RunningStats := ⟨0, 0, 0, 0, 0, 0⟩

/-- One loop iteration of `get_evaluation_summary`: count the row and add its
five numeric fields (each falling back to 0.0 on parse failure). -/
def bumpStats (s : RunningStats) (row : EvalRow) : RunningStats :=
  { count := s.count + 1
    avg_rouge1 := s.avg_rouge1 + floatOr0 row.rouge1_score
    avg_rouge2 := s.avg_rouge2 + floatOr0 row.rouge2_score
    avg_rougeL := s.avg_rougeL + floatOr0 row.rougeL_score
    avg_readability := s.avg_readability + floatOr0 row.readability_score
    total_time := s.total_time + floatOr0 row.processing_time }

/-- Python dict lookup on an insertion-ordered association list. -/
def dictGet {β : Type} : List (String × β) → String → Option β
  | [], _ => none
  | p :: m, v => if p.1 = v then some p.2 else dictGet m v

/-- Python dict assignment on an insertion-ordered association list: update
in place when the key exists, append otherwise. -/
def dictSet {β : Type} : List (String × β) → String → β → List (String × β)
  | [], v, s => [(v, s)]
  | p :: m, v, s => if p.1 = v then (v, s) :: m else p :: dictSet m v s

/-- One iteration of the grouping loop: create the zeroed entry for a
first-seen prompt version, then accumulate the row into it. -/
def addRow (m : List (String × RunningStats)) (row : EvalRow) : List (String × RunningStats) :=
  dictSet m row.prompt_version
    (bumpStats ((dictGet m row.prompt_version).getD initStats) row)

/-- The finalized per-version statistics of `get_evaluation_summary` after
the averaging pass (which rounds the three rouge averages to 3 decimals, the
readability average to 1, the average time to 2, and also keeps the total
time). -/
structure VersionStats where
  count : ℕ
  avg_rouge1 : ℚ
  avg_rouge2 : ℚ
  avg_rougeL : ℚ
  avg_readability : ℚ
  total_time : ℚ
  avg_time : ℚ
deriving DecidableEq, Repr

/-- The averaging pass applied to one accumulated entry. -/
def finalizeStats (s : RunningStats) : VersionStats :=
  { count := s.count
    avg_rouge1 := roundTo 3 (s.avg_rouge1 / (s.count : ℚ))
    avg_rouge2 := roundTo 3 (s.avg_rouge2 / (s.count : ℚ))
    avg_rougeL := roundTo 3 (s.avg_rougeL / (s.count : ℚ))
    avg_readability := roundTo 1 (s.avg_readability / (s.count : ℚ))
    total_time := s.total_time
    avg_time := roundTo 2 (s.total_time / (s.count : ℚ)) }

structure EvalSummary where
  version_stats : List (String × VersionStats)
  rows : List EvalRow
  total_evaluations : ℕ
deriving DecidableEq, Repr

/-- Embedding of `evaluation.get_evaluation_summary` over the parsed rows of
the evaluation log (a missing log file is the empty row list): `None` when
there are no rows, otherwise the per-version statistics in first-seen order
together with the raw rows and their count. -/
def get_evaluation_summary (rows : List EvalRow) : Option EvalSummary :=
  if rows.isEmpty then none
  else some
    { version_stats := (rows.foldl addRow []).map (fun p => (p.1, finalizeStats p.2))
      rows := rows
      total_evaluations := rows.length }

/-- The per-version lookup into the summary computed by
`get_evaluation_summary`. -/
def evalVersionStats (rows : List EvalRow) (v : String) : Option VersionStats :=
  match get_evaluation_summary rows with
  | some s => dictGet s.version_stats v
  | none => none

/-- Replace every numeric field that failed to parse by a parsed `0.0` (the
value `get_evaluation_summary` falls back to). -/
def zeroFillEvalRow (r : EvalRow) : EvalRow :=
  { r with
    rouge1_score := some (floatOr0 r.rouge1_score)
    rouge2_score := some (floatOr0 r.rouge2_score)
    rougeL_score := some (floatOr0 r.rougeL_score)
    readability_score := some (floatOr0 r.readability_score)
    processing_time := some (floatOr0 r.processing_time) }

/-! ## metrics.py: the usage log, get_metrics_summary, get_recent_summaries,
log_summary -/

/-- A row of the usage log as read back by `csv.DictReader`, numeric cells
abstracted to their parse outcome. -/
structure UsageRow where
  timestamp : String
  input_length : Option ℤ
  summary_length : Option ℤ
  compression_ratio : Option ℚ
  summary_tone : String
  summary_length_setting : String
  input_source : String
  file_type : String
  api_cost_estimate : Option ℚ
  processing_time_seconds : Option ℚ
deriving DecidableEq, Repr

structure MetricsSummary where
  total_summaries : ℕ
  total_input_chars : ℤ
  total_output_chars : ℤ
  avg_compression_ratio : ℚ
  total_cost_usd : ℚ
  avg_processing_time : ℚ
  text_uploads : ℕ
  file_uploads : ℕ
  tone_distribution : List (String × ℕ)
  length_distribution : List (String × ℕ)
  rows : List UsageRow
deriving DecidableEq, Repr

/-- The `counts[key] = counts.get(key, 0) + 1` frequency loop. -/
def countBy (rows : List UsageRow) (f : UsageRow → String) : List (String × ℕ) :=
  rows.foldl (fun m r => dictSet m (f r) ((dictGet m (f r)).getD 0 + 1)) []

/-- A `sum(... for row in rows)` whose per-row conversion can raise: the
values in order when every conversion succeeds, `none` (the exception
propagating to the outer handler) as soon as one fails. -/
def allParsed {γ : Type} (f : UsageRow → Option γ) : List UsageRow → Option (List γ)
  | [] => some []
  | r :: rs =>
    match f r, allParsed f rs with
    | some x, some xs => some (x :: xs)
    | _, _ => none

/-- Embedding of `metrics.get_metrics_summary`.  `int(row["input_length"])`,
`int(row["summary_length"])` and `float(row["api_cost_estimate"])` are summed
with no per-field fallback, so any parse failure there raises and is caught
only by the outer handler, which returns `None`; `compression_ratio` and
`processing_time_seconds` have per-row `try/except` that skips unparsable
values from their averages. -/
def get_metrics_summary (rows : List UsageRow) : Option MetricsSummary :=
  if rows.isEmpty then none
  else
    match allParsed (fun r => r.input_length) rows, allParsed (fun r => r.summary_length) rows,
        allParsed (fun r => r.api_cost_estimate) rows with
    | some input_lengths, some summary_lengths, some costs =>
      let compression_ratios := rows.filterMap (fun r => r.compression_ratio)
      let avg_compression : ℚ :=
        if compression_ratios.isEmpty then 0
        else compression_ratios.sum / (compression_ratios.length : ℚ)
      let processing_times := rows.filterMap (fun r => r.processing_time_seconds)
      let avg_processing_time : ℚ :=
        if processing_times.isEmpty then 0
        else processing_times.sum / (processing_times.length : ℚ)
      some
        { total_summaries := rows.length
          total_input_chars := input_lengths.sum
          total_output_chars := summary_lengths.sum
          avg_compression_ratio := roundTo 2 avg_compression
          total_cost_usd := roundTo 4 costs.sum
          avg_processing_time := roundTo 2 avg_processing_time
          text_uploads := (rows.filter (fun r => r.input_source = "text")).length
          file_uploads := (rows.filter (fun r => r.input_source = "file")).length
          tone_distribution := countBy rows (fun r => r.summary_tone)
          length_distribution := countBy rows (fun r => r.summary_length_setting)
          rows := rows }
    | _, _, _ => none

/-- Python `rows[-limit:]` for a non-negative `limit`: the whole list when
`limit = 0` (since `-0 == 0`), otherwise the last `limit` elements. -/
def pyTailSlice {α : Type} (rows : List α) (limit : ℕ) : List α :=
  if limit = 0 then rows else rows.drop (rows.length - limit)

/-- Embedding of `metrics.get_recent_summaries`: slice the rows of a
successful `get_metrics_summary`, the empty list otherwise. -/
def get_recent_summaries (rows : List UsageRow) (limit : ℕ) : List UsageRow :=
  match get_metrics_summary rows with
  | some m => pyTailSlice m.rows limit
  | none => []

/-- The usage-log row written by `metrics.log_summary` (all cells concrete,
since the writer formats real values). -/
structure WrittenUsageRow where
  timestamp : String
  input_length : ℕ
  summary_length : ℕ
  compression_ratio : ℚ
  summary_tone : String
  summary_length_setting : String
  input_source : String
  file_type : String
  api_cost_estimate : ℚ
  processing_time_seconds : ℚ
deriving DecidableEq, Repr

/-- Embedding of `metrics.log_summary`: the row appended to the usage log,
with the API cost estimated from a 4-characters-per-token linear rate. -/
def log_summary (timestamp : String) (input_length summary_length : ℕ)
    (compression_ratio : ℚ) (tone length_setting input_source : String)
    (file_type : Option String) (processing_time : ℚ) : WrittenUsageRow :=
  let input_tokens : ℚ := (input_length : ℚ) / 4
  let output_tokens : ℚ := (summary_length : ℚ) / 4
  let api_cost := roundTo 4 ((input_tokens * 0.0005 + output_tokens * 0.0015) / 1000)
  { timestamp := timestamp
    input_length := input_length
    summary_length := summary_length
    compression_ratio := compression_ratio
    summary_tone := tone
    summary_length_setting := length_setting
    input_source := input_source
    file_type := file_type.getD "N/A"
    api_cost_estimate := api_cost
    processing_time_seconds := roundTo 2 processing_time }

/-! ## prompt_versions.py -/

structure VersionInfo where
  name : String
  description : String
  template : String
  version : String
deriving DecidableEq, Repr

def PROMPT_V1_BASIC : String :=
  "Summarize the following text concisely:\n\nText:\n{text}\n\nSummary:"

def PROMPT_V2_ROLE_BASED : String :=
  "You are an expert summarizer. Your task is to create a clear, \nconcise summary that captures the main ideas and key facts.\n\nFocus on:\n- Main points\n- Key findings\n- Important details\n- Facts over opinions\n\nText:\n{text}\n\nSummary:"

def PROMPT_V3_CHAIN_OF_THOUGHT : String :=
  "You are an expert summarizer. Let\x27s think step by step.\n\nStep 1: Identify the main topic and purpose of the text\nStep 2: Find the key arguments or findings\nStep 3: Note important statistics or evidence\nStep 4: Identify conclusions or recommendations\nStep 5: Write a concise summary combining these elements\n\nText:\n{text}\n\nLet\x27s think through this:\n1. Main topic: \n2. Key arguments:\n3. Important evidence:\n4. Conclusions:\n\nSummary:"

def PROMPT_V4_STRUCTURED : String :=
  "Create a summary with the following structure:\n\nKey Findings (1-2 sentences):\nDetails (2-3 sentences):\nImplications (1-2 sentences):\n\nText:\n{text}\n\nSummary:\nKey Findings: [Your response]\nDetails: [Your response]\nImplications: [Your response]"

def PROMPT_V5_CONTEXT_AWARE : String :=
  "You are an expert summarizer. Create a summary following these examples:\n\nExample Input: \"Machine learning is a subset of artificial intelligence...\"\nExample Summary: \"Machine learning, a key AI technology, focuses on algorithms that learn from data.\"\n\nNow summarize this text in a similar concise style:\n\nText:\n{text}\n\nSummary:"

/-- The prompt registry, an insertion-ordered dictionary keyed by version
identifier. -/
def PROMPT_VERSIONS : List (String × VersionInfo) :=
  [("v1_basic",
    { name := "Basic Prompt"
      description := "Simple instruction-based prompt"
      template := PROMPT_V1_BASIC
      version := "v1" }),
   ("v2_role_based",
    { name := "Role-Based Prompt"
      description := "Defines expertise role with focus areas"
      template := PROMPT_V2_ROLE_BASED
      version := "v2" }),
   ("v3_chain_of_thought",
    { name := "Chain-of-Thought Prompt"
      description := "Step-by-step reasoning approach"
      template := PROMPT_V3_CHAIN_OF_THOUGHT
      version := "v3" }),
   ("v4_structured",
    { name := "Structured Prompt"
      description := "Enforces output structure"
      template := PROMPT_V4_STRUCTURED
      version := "v4" }),
   ("v5_context_aware",
    { name := "Context-Aware Prompt"
      description := "Provides examples for better alignment"
      template := PROMPT_V5_CONTEXT_AWARE
      version := "v5" })]

/-- Dictionary membership plus subscript access used by both getters. -/
def pvLookup (version_key : String) : Option VersionInfo :=
  dictGet PROMPT_VERSIONS version_key

/-- Embedding of `prompt_versions.get_prompt_template`: the template for a
registered key, a raised `ValueError` (modelled as `Except.error`) for an
unknown key. -/
def get_prompt_template (version_key : String) : Except String String :=
  match pvLookup version_key with
  | some info => Except.ok info.template
  | none => Except.error ("Unknown prompt version: " ++ version_key)

/-- Embedding of `prompt_versions.get_version_name`: the display name for a
registered key, the key itself for an unknown key. -/
def get_version_name (version_key : String) : String :=
  match pvLookup version_key with
  | some info => info.name
  | none => version_key

/-! ### Dictionary and grouping lemmas -/

theorem dictGet_dictSet_self {β : Type} (m : List (String × β)) (v : String) (s : β) :
    dictGet (dictSet m v s) v = some s := by
  induction m with
  | nil => simp [dictSet, dictGet]
  | cons p m ih =>
    by_cases h : p.1 = v
    · simp [dictSet, dictGet, h]
    · simp [dictSet, dictGet, h, ih]

theorem dictGet_dictSet_ne {β : Type} (m : List (String × β)) {v w : String} (s : β)
    (h : w ≠ v) : dictGet (dictSet m v s) w = dictGet m w := by
  induction m with
  | nil => simp [dictSet, dictGet, Ne.symm h]
  | cons p m ih =>
    by_cases hp : p.1 = v
    · simp [dictSet, dictGet, hp, Ne.symm h]
    · simp [dictSet, dictGet, hp, ih]

theorem dictGet_map {β γ : Type} (f : β → γ) (m : List (String × β)) (v : String) :
    dictGet (m.map (fun p => (p.1, f p.2))) v = (dictGet m v).map f := by
  induction m with
  | nil => rfl
  | cons p m ih => by_cases h : p.1 = v <;> simp [dictGet, h, ih]

theorem dictGet_foldl_addRow (rows : List EvalRow) :
    ∀ (m : List (String × RunningStats)) (v : String),
      dictGet (rows.foldl addRow m) v =
        if (rows.filter (fun r => r.prompt_version = v)).isEmpty
        then dictGet m v
        else some ((rows.filter (fun r => r.prompt_version = v)).foldl bumpStats
          ((dictGet m v).getD initStats)) := by
  induction rows with
  | nil => intro m v; simp
  | cons r rows ih =>
    intro m v
    rw [List.foldl_cons, ih]
    by_cases hv : r.prompt_version = v
    · have h1 : dictGet (addRow m r) v =
          some (bumpStats ((dictGet m v).getD initStats) r) := by
        rw [addRow, hv]
        exact dictGet_dictSet_self m v _
      have hfilter : (r :: rows).filter (fun x => x.prompt_version = v) =
          r :: rows.filter (fun x => x.prompt_version = v) := by
        simp [List.filter_cons, hv]
      rw [h1, hfilter]
      cases hfe : (rows.filter (fun x => x.prompt_version = v)).isEmpty with
      | true =>
        have hnil : rows.filter (fun x => x.prompt_version = v) = [] := by
          cases hl : rows.filter (fun x => x.prompt_version = v) with
          | nil => rfl
          | cons a l => rw [hl] at hfe; simp [List.isEmpty] at hfe
        simp [hfe, hnil]
      | false => simp [hfe]
    · have h1 : dictGet (addRow m r) v = dictGet m v := by
        rw [addRow]
        exact dictGet_dictSet_ne m _ (Ne.symm hv)
      have hfilter : (r :: rows).filter (fun x => x.prompt_version = v) =
          rows.filter (fun x => x.prompt_version = v) := by
        simp [List.filter_cons, hv]
      rw [h1, hfilter]

theorem foldl_bumpStats (l : List EvalRow) :
    ∀ s : RunningStats,
      l.foldl bumpStats s =
        ⟨s.count + l.length,
         s.avg_rouge1 + (l.map (fun r => floatOr0 r.rouge1_score)).sum,
         s.avg_rouge2 + (l.map (fun r => floatOr0 r.rouge2_score)).sum,
         s.avg_rougeL + (l.map (fun r => floatOr0 r.rougeL_score)).sum,
         s.avg_readability + (l.map (fun r => floatOr0 r.readability_score)).sum,
         s.total_time + (l.map (fun r => floatOr0 r.processing_time)).sum⟩ := by
  induction l with
  | nil => intro s; simp
  | cons r l ih =>
    intro s
    rw [List.foldl_cons, ih]
    simp only [List.map_cons, List.sum_cons, List.length_cons, bumpStats,
      RunningStats.mk.injEq]
    refine ⟨by omega, by ring, by ring, by ring, by ring, by ring⟩

theorem evalVersionStats_char (rows : List EvalRow) (v : String) :
    evalVersionStats rows v =
      if (rows.filter (fun r => r.prompt_version = v)).isEmpty then none
      else some (finalizeStats
        ((rows.filter (fun r => r.prompt_version = v)).foldl bumpStats initStats)) := by
  rw [evalVersionStats, get_evaluation_summary]
  cases he : rows.isEmpty with
  | true =>
    have : rows = [] := by
      cases hl : rows with
      | nil => rfl
      | cons a l => rw [hl] at he; simp [List.isEmpty] at he
    subst this
    simp
  | false =>
    simp only [Bool.false_eq_true, if_false]
    rw [dictGet_map, dictGet_foldl_addRow]
    cases hfe : (rows.filter (fun r => r.prompt_version = v)).isEmpty with
    | true => simp [hfe, dictGet]
    | false => simp [hfe, dictGet]

/-! ### Theorem for claim C7 -/

/-- Claim C7: the per-strategy grouping and averaging performed by
`get_evaluation_summary` is order-independent — permuting the record
sequence leaves every strategy's aggregate (count, averaged scores, times)
unchanged. -/
theorem eval_summary_order_independent (rows rows' : List EvalRow)
    (h : rows.Perm rows') (v : String) :
    evalVersionStats rows v = evalVersionStats rows' v := by
  rw [evalVersionStats_char, evalVersionStats_char]
  have hf : (rows.filter (fun r => r.prompt_version = v)).Perm
      (rows'.filter (fun r => r.prompt_version = v)) := h.filter _
  have hlen := hf.length_eq
  have hbool : ∀ l : List EvalRow, l.isEmpty = decide (l.length = 0) := by
    intro l; cases l <;> rfl
  have hempty : (rows.filter (fun r => r.prompt_version = v)).isEmpty =
      (rows'.filter (fun r => r.prompt_version = v)).isEmpty := by
    rw [hbool, hbool, hlen]
  have hfold : (rows.filter (fun r => r.prompt_version = v)).foldl bumpStats initStats =
      (rows'.filter (fun r => r.prompt_version = v)).foldl bumpStats initStats := by
    rw [foldl_bumpStats, foldl_bumpStats]
    simp only [RunningStats.mk.injEq]
    exact ⟨by rw [hlen], by rw [(hf.map _).sum_eq], by rw [(hf.map _).sum_eq],
      by rw [(hf.map _).sum_eq], by rw [(hf.map _).sum_eq], by rw [(hf.map _).sum_eq]⟩
  rw [hempty, hfold]

/-- A sample evaluation row for the v1_basic strategy. -/
def evalRowA : EvalRow :=
  ⟨"2024-01-01 10:00:00", "v1_basic", some 120, some (2/5), some (3/10), some (2/5),
    some (11/30), some 50, some 80, some 70, some (3/2)⟩

/-- A sample evaluation row for the v2_role_based strategy. -/
def evalRowB : EvalRow :=
  ⟨"2024-01-01 10:05:00", "v2_role_based", some 150, some (3/5), some (1/2), some (3/5),
    some (17/30), some 60, some 75, some 65, some 2⟩

/-- Witness for C7: swapping two concrete records leaves the v1_basic
aggregate unchanged. -/
theorem eval_summary_order_independent_witness :
    evalVersionStats [evalRowA, evalRowB] "v1_basic" =
      evalVersionStats [evalRowB, evalRowA] "v1_basic" :=
  eval_summary_order_independent [evalRowA, evalRowB] [evalRowB, evalRowA]
    (List.Perm.swap evalRowB evalRowA []) "v1_basic"

/-! ### Parse-failure lemmas and theorems for claims C2, C8, C9, C10 -/

theorem allParsed_eq_none_iff {γ : Type} (f : UsageRow → Option γ) :
    ∀ rows : List UsageRow, allParsed f rows = none ↔ ∃ r ∈ rows, f r = none := by
  intro rows
  induction rows with
  | nil => simp [allParsed]
  | cons r rs ih =>
    cases hf : f r with
    | none =>
      have hnone : allParsed f (r :: rs) = none := by simp [allParsed, hf]
      rw [hnone]
      exact iff_of_true rfl ⟨r, List.mem_cons_self r rs, hf⟩
    | some x =>
      cases hp : allParsed f rs with
      | none =>
        have hnone : allParsed f (r :: rs) = none := by simp [allParsed, hf, hp]
        rw [hnone]
        obtain ⟨a, ha, hfa⟩ := ih.mp hp
        exact iff_of_true rfl ⟨a, List.mem_cons_of_mem r ha, hfa⟩
      | some xs =>
        have hsome : allParsed f (r :: rs) = some (x :: xs) := by simp [allParsed, hf, hp]
        rw [hsome]
        constructor
        · intro hcontra; simp at hcontra
        · rintro ⟨a, ha, hfa⟩
          rcases List.mem_cons.mp ha with rfl | ha'
          · rw [hf] at hfa; simp at hfa
          · have hc : allParsed f rs = none := ih.mpr ⟨a, ha', hfa⟩
            rw [hp] at hc; simp at hc

/-- All three unprotected numeric columns of a usage row parse. -/
def usageRowsReadable (rows : List UsageRow) : Bool :=
  rows.all (fun r =>
    r.input_length.isSome && r.summary_length.isSome && r.api_cost_estimate.isSome)

theorem get_metrics_summary_rows (rows : List UsageRow)
    (h : usageRowsReadable rows = true) (hne : rows ≠ []) :
    ∃ m, get_metrics_summary rows = some m ∧ m.rows = rows := by
  have hAll := List.all_eq_true.mp h
  have hie : rows.isEmpty = false := by
    cases rows with
    | nil => exact absurd rfl hne
    | cons _ _ => rfl
  rw [get_metrics_summary, hie]
  cases h1 : allParsed (fun r => r.input_length) rows with
  | none =>
    obtain ⟨a, ha, hfa⟩ := (allParsed_eq_none_iff _ _).mp h1
    have := hAll a ha
    rw [hfa] at this; simp at this
  | some xs =>
    cases h2 : allParsed (fun r => r.summary_length) rows with
    | none =>
      obtain ⟨a, ha, hfa⟩ := (allParsed_eq_none_iff _ _).mp h2
      have := hAll a ha
      rw [hfa] at this; simp at this
    | some ys =>
      cases h3 : allParsed (fun r => r.api_cost_estimate) rows with
      | none =>
        obtain ⟨a, ha, hfa⟩ := (allParsed_eq_none_iff _ _).mp h3
        have := hAll a ha
        rw [hfa] at this; simp at this
      | some zs => exact ⟨_, rfl, rfl⟩

/-- Claim C2 (amended): `get_evaluation_summary` never drops a row — every
row counts toward its strategy regardless of which numeric fields parse, and
an unparsable field contributes exactly as a parsed `0.0` does.
`get_metrics_summary`, however, aborts the whole read (returns `None`)
exactly when the log is empty or some row has an unparsable `input_length`,
`summary_length` or `api_cost_estimate`; only the `compression_ratio` and
`processing_time_seconds` columns are read with a per-field fallback and can
never make the read fail. -/
theorem log_readers_parse_tolerance :
    (∀ (rows : List EvalRow) (v : String),
      evalVersionStats rows v = evalVersionStats (rows.map zeroFillEvalRow) v) ∧
    (∀ (rows : List EvalRow) (v : String),
      (evalVersionStats rows v).map (fun s => s.count) =
        if (rows.filter (fun r => r.prompt_version = v)).isEmpty then none
        else some (rows.filter (fun r => r.prompt_version = v)).length) ∧
    (∀ rows : List UsageRow,
      (get_metrics_summary rows = none ↔
        rows = [] ∨ ∃ r ∈ rows, r.input_length = none ∨ r.summary_length = none ∨
          r.api_cost_estimate = none)) := by
  refine ⟨fun rows v => ?_, fun rows v => ?_, fun rows => ?_⟩
  · have hmap : ∀ l : List EvalRow,
        (l.map zeroFillEvalRow).filter (fun r => r.prompt_version = v) =
          (l.filter (fun r => r.prompt_version = v)).map zeroFillEvalRow := by
      intro l
      induction l with
      | nil => rfl
      | cons r l ih =>
        by_cases h : r.prompt_version = v
        · simp [List.filter_cons, zeroFillEvalRow, h, ih]
        · simp [List.filter_cons, zeroFillEvalRow, h, ih]
    have e1 : ((fun r : EvalRow => floatOr0 r.rouge1_score) ∘ zeroFillEvalRow) =
        (fun r : EvalRow => floatOr0 r.rouge1_score) := funext fun r => rfl
    have e2 : ((fun r : EvalRow => floatOr0 r.rouge2_score) ∘ zeroFillEvalRow) =
        (fun r : EvalRow => floatOr0 r.rouge2_score) := funext fun r => rfl
    have e3 : ((fun r : EvalRow => floatOr0 r.rougeL_score) ∘ zeroFillEvalRow) =
        (fun r : EvalRow => floatOr0 r.rougeL_score) := funext fun r => rfl
    have e4 : ((fun r : EvalRow => floatOr0 r.readability_score) ∘ zeroFillEvalRow) =
        (fun r : EvalRow => floatOr0 r.readability_score) := funext fun r => rfl
    have e5 : ((fun r : EvalRow => floatOr0 r.processing_time) ∘ zeroFillEvalRow) =
        (fun r : EvalRow => floatOr0 r.processing_time) := funext fun r => rfl
    rw [evalVersionStats_char, evalVersionStats_char, hmap rows]
    generalize rows.filter (fun r => r.prompt_version = v) = fl
    have hie : (fl.map zeroFillEvalRow).isEmpty = fl.isEmpty := by cases fl <;> rfl
    have hfold : (fl.map zeroFillEvalRow).foldl bumpStats initStats =
        fl.foldl bumpStats initStats := by
      rw [foldl_bumpStats, foldl_bumpStats]
      simp only [List.map_map, List.length_map, e1, e2, e3, e4, e5]
    rw [hie, hfold]
  · rw [evalVersionStats_char]
    cases hfe : (rows.filter (fun r => r.prompt_version = v)).isEmpty with
    | true => simp [hfe]
    | false =>
      simp only [hfe, Bool.false_eq_true, if_false, Option.map_some]
      rw [foldl_bumpStats]
      simp [finalizeStats, initStats]
  · cases rows with
    | nil => simp [get_metrics_summary]
    | cons r rs =>
      rw [get_metrics_summary]
      have hne : (r :: rs : List UsageRow).isEmpty = false := rfl
      rw [hne]
      simp only [Bool.false_eq_true, if_false]
      constructor
      · intro h
        right
        cases h1 : allParsed (fun x => x.input_length) (r :: rs) with
        | none =>
          obtain ⟨a, ha, hfa⟩ := (allParsed_eq_none_iff _ _).mp h1
          exact ⟨a, ha, Or.inl hfa⟩
        | some xs =>
          cases h2 : allParsed (fun x => x.summary_length) (r :: rs) with
          | none =>
            obtain ⟨a, ha, hfa⟩ := (allParsed_eq_none_iff _ _).mp h2
            exact ⟨a, ha, Or.inr (Or.inl hfa)⟩
          | some ys =>
            cases h3 : allParsed (fun x => x.api_cost_estimate) (r :: rs) with
            | none =>
              obtain ⟨a, ha, hfa⟩ := (allParsed_eq_none_iff _ _).mp h3
              exact ⟨a, ha, Or.inr (Or.inr hfa)⟩
            | some zs => rw [h1, h2, h3] at h; simp at h
      · rintro (hcontra | ⟨a, ha, hfa | hfa | hfa⟩)
        · exact absurd hcontra (List.cons_ne_nil r rs)
        · have h1 : allParsed (fun x => x.input_length) (r :: rs) = none :=
            (allParsed_eq_none_iff _ _).mpr ⟨a, ha, hfa⟩
          cases h2 : allParsed (fun x => x.summary_length) (r :: rs) <;>
            cases h3 : allParsed (fun x => x.api_cost_estimate) (r :: rs) <;>
              simp [h1, h2, h3]
        · have h2 : allParsed (fun x => x.summary_length) (r :: rs) = none :=
            (allParsed_eq_none_iff _ _).mpr ⟨a, ha, hfa⟩
          cases h1 : allParsed (fun x => x.input_length) (r :: rs) <;>
            cases h3 : allParsed (fun x => x.api_cost_estimate) (r :: rs) <;>
              simp [h1, h2, h3]
        · have h3 : allParsed (fun x => x.api_cost_estimate) (r :: rs) = none :=
            (allParsed_eq_none_iff _ _).mpr ⟨a, ha, hfa⟩
          cases h1 : allParsed (fun x => x.input_length) (r :: rs) <;>
            cases h2 : allParsed (fun x => x.summary_length) (r :: rs) <;>
              simp [h1, h2, h3]

/-- A fully parseable usage row. -/
def usageRowA : UsageRow :=
  ⟨"2024-01-01 10:00:00", some 1000, some 200, some 20, "Neutral", "Short", "text",
    "N/A", some (1/1000), some (3/2)⟩

/-- A second fully parseable usage row. -/
def usageRowB : UsageRow :=
  ⟨"2024-01-01 10:05:00", some 800, some 150, some (75/4), "Academic", "Medium", "file",
    "pdf", some (4/5000), some 2⟩

/-- A usage row whose only unparsable cell is `api_cost_estimate`. -/
def usageRowBadCost : UsageRow :=
  ⟨"2024-01-01 10:10:00", some 1000, some 200, some 20, "Neutral", "Short", "text",
    "N/A", none, some (3/2)⟩

/-- Claim C2 counterexample: a log whose single row has one unparsable
numeric cell (`api_cost_estimate`).  `get_metrics_summary` aborts the whole
read and returns `None` instead of including the row; repairing that one
cell makes the same read succeed. -/
theorem metrics_summary_aborts_on_bad_cost_cex :
    get_metrics_summary [usageRowBadCost] = none ∧
    (get_metrics_summary [{ usageRowBadCost with api_cost_estimate := some 0 }]).isSome
      = true := by
  constructor
  · rfl
  · rfl

/-- Witness for C2: the zero-fill equivalence applied to a concrete row with
several unparsable fields. -/
def evalRowBad : EvalRow :=
  ⟨"2024-01-01 11:00:00", "v1_basic", some 10, none, some (2/5), none, none, some 50,
    some 80, none, none⟩

theorem log_readers_parse_tolerance_witness :
    evalVersionStats [evalRowBad] "v1_basic" =
      evalVersionStats ([evalRowBad].map zeroFillEvalRow) "v1_basic" :=
  log_readers_parse_tolerance.1 [evalRowBad] "v1_basic"

/-- Claim C8: the api_cost_estimate persisted by `log_summary` equals
`(input_length/4 * 0.0005 + summary_length/4 * 0.0015) / 1000` rounded to 4
decimal places. -/
theorem api_cost_estimate_formula (timestamp : String)
    (input_length summary_length : ℕ) (compression_ratio : ℚ)
    (tone length_setting input_source : String) (file_type : Option String)
    (processing_time : ℚ) :
    (log_summary timestamp input_length summary_length compression_ratio tone
        length_setting input_source file_type processing_time).api_cost_estimate =
      roundTo 4 (((input_length : ℚ) / 4 * 0.0005 +
        (summary_length : ℚ) / 4 * 0.0015) / 1000) := rfl

/-- Claim C9: on a readable usage log, `get_recent_summaries` returns the
last `min(limit, N)` rows in log order when `limit > 0`; when `limit = 0`
the Python slice `rows[-0:]` is the whole list, so all rows are returned;
an absent or empty log yields the empty list. -/
theorem recent_summaries_slicing (rows : List UsageRow) (limit : ℕ)
    (h : usageRowsReadable rows = true) :
    (0 < limit → get_recent_summaries rows limit = rows.drop (rows.length - limit) ∧
      (get_recent_summaries rows limit).length = min limit rows.length) ∧
    (limit = 0 → get_recent_summaries rows limit = rows) ∧
    (rows = [] → get_recent_summaries rows limit = []) := by
  by_cases hne : rows = []
  · subst hne
    have hnil : get_recent_summaries [] limit = [] := rfl
    refine ⟨fun hl => ?_, fun _ => ?_, fun _ => hnil⟩
    · rw [hnil]; simp
    · rw [hnil]
  · obtain ⟨m, hm, hmrows⟩ := get_metrics_summary_rows rows h hne
    have hgr : get_recent_summaries rows limit = pyTailSlice rows limit := by
      rw [get_recent_summaries, hm]
      show pyTailSlice m.rows limit = pyTailSlice rows limit
      rw [hmrows]
    refine ⟨fun hl => ?_, fun h0 => ?_, fun hc => absurd hc hne⟩
    · have hslice : pyTailSlice rows limit = rows.drop (rows.length - limit) := by
        rw [pyTailSlice, if_neg (by omega)]
      refine ⟨by rw [hgr, hslice], ?_⟩
      rw [hgr, hslice, List.length_drop]
      omega
    · rw [hgr, pyTailSlice, if_pos h0]

/-- Witness for C9: with limit 0 the whole two-row log is returned, not zero
rows, and with limit 1 only the last row is. -/
theorem recent_summaries_slicing_witness :
    get_recent_summaries [usageRowA, usageRowB] 0 = [usageRowA, usageRowB] ∧
    get_recent_summaries [usageRowA, usageRowB] 1 =
      ([usageRowA, usageRowB] : List UsageRow).drop 1 :=
  ⟨(recent_summaries_slicing [usageRowA, usageRowB] 0 (by decide)).2.1 rfl,
    (recent_summaries_slicing [usageRowA, usageRowB] 1 (by decide)).1 (by decide) |>.1⟩

/-- Claim C10: an unknown strategy key makes `get_version_name` return the
key itself (no error), while `get_prompt_template` raises for the very same
key; a registered key yields its display name. -/
theorem version_name_vs_template_lookup (version_key : String) :
    (pvLookup version_key = none →
      get_version_name version_key = version_key ∧
      get_prompt_template version_key =
        Except.error ("Unknown prompt version: " ++ version_key)) ∧
    (∀ info : VersionInfo, pvLookup version_key = some info →
      get_version_name version_key = info.name) := by
  constructor
  · intro h
    constructor
    · rw [get_version_name, h]
    · rw [get_prompt_template, h]
  · intro info h
    rw [get_version_name, h]

/-- Witness for C10 at an unknown key and a registered key. -/
theorem version_name_vs_template_lookup_witness :
    get_version_name "v9_missing" = "v9_missing" ∧
    get_prompt_template "v9_missing" =
      Except.error ("Unknown prompt version: " ++ "v9_missing") ∧
    get_version_name "v1_basic" = "Basic Prompt" :=
  ⟨((version_name_vs_template_lookup "v9_missing").1 rfl).1,
    ((version_name_vs_template_lookup "v9_missing").1 rfl).2,
    (version_name_vs_template_lookup "v1_basic").2
      { name := "Basic Prompt", description := "Simple instruction-based prompt",
        template := PROMPT_V1_BASIC, version := "v1" } rfl⟩
